import Mathlib

/-!
Verification of the licensing SaaS core (`main.py`, `schemas.py`).

We shallowly embed the two operations that carry business logic:
`create_license` (the Key Issuer, `POST /api/licenses`) and
`activate_license` (the Activation Admission Controller,
`POST /api/licenses/activate`), together with the pieces of the
`License` pydantic schema they rely on.

Modelling conventions:
* Python strings are Lean `String`s; the Python string helpers used by the
  key generator (`.upper()`, `.replace(c, "")`, slicing `s[a:b]`) are
  embedded character-wise below.
* `secrets.token_urlsafe(16)` returns the URL-safe base64 encoding
  (alphabet `A-Za-z0-9-_`, no padding) of 16 random bytes; the byte
  string is the 16-element list argument of `token_urlsafe_bytes`.
  Randomness is modelled by quantifying over the byte list.
* Mongo documents live in Lean lists; `find_one` is first match,
  `update_one` on the found document's `_id` replaces exactly the record
  `find_one` produced (the first match).
* `bson.ObjectId(s)` accepts exactly 24-character hex strings and raises
  `InvalidId` otherwise (per the bson library); a raised exception other
  than `HTTPException` is converted by the generic handler into an
  HTTP 400 whose detail is `str(e)`, modelled here by the exception
  class name.
* pydantic validation of `License.max_activations` (`ge=1, le=100` in
  `schemas.py`) raises `ValidationError` on violation, again surfaced
  as a generic HTTP 400.
-/

namespace Licensing

/-- Python `s.upper()` restricted to the ASCII strings this code handles. -/
def pyUpper (s : String) : String := ⟨s.data.map Char.toUpper⟩

/-- Python `s.lower()` restricted to the ASCII strings this code handles. -/
def pyLower (s : String) : String := ⟨s.data.map Char.toLower⟩

/-- Python `s.replace(c, "")` for a one-character pattern: drop every
occurrence of `c`. -/
def pyReplaceChar (s : String) (c : Char) : String :=
  ⟨s.data.filter (fun x => x ≠ c)⟩

/-- Python slicing `s[a:b]` for `0 ≤ a ≤ b`: clamps at the end of the
string instead of failing. -/
def pySlice (s : String) (a b : Nat) : String :=
  ⟨(s.data.drop a).take (b - a)⟩

/-- The URL-safe base64 alphabet, in index order (RFC 4648 §5). -/
def b64urlChars : List Char :=
  "ABCDEFGHIJKLMNOPQRSTUVWXYZabcdefghijklmnopqrstuvwxyz0123456789-_".data

/-- Character at a given 6-bit index of the URL-safe base64 alphabet. -/
def b64urlChar (n : Nat) : Char := b64urlChars.getD n 'A'

/-- URL-safe base64 of a byte list (each element `< 256`), without the
`=` padding that `secrets.token_urlsafe` strips. -/
def b64urlEncode : List Nat → List Char
  | [] => []
  | [b1] => [b64urlChar (b1 / 4), b64urlChar (b1 % 4 * 16)]
  | [b1, b2] =>
    [b64urlChar (b1 / 4), b64urlChar (b1 % 4 * 16 + b2 / 16),
     b64urlChar (b2 % 16 * 4)]
  | b1 :: b2 :: b3 :: rest =>
    b64urlChar (b1 / 4) :: b64urlChar (b1 % 4 * 16 + b2 / 16) ::
    b64urlChar (b2 % 16 * 4 + b3 / 64) :: b64urlChar (b3 % 64) ::
    b64urlEncode rest

/-- `secrets.token_urlsafe(16)` applied to a concrete 16-byte random
draw `bs`: the unpadded URL-safe base64 text of those bytes. -/
def token_urlsafe_bytes (bs : List Nat) : String := ⟨b64urlEncode bs⟩

/-- A possible output of `secrets.token_urlsafe(16)`: some 16-byte draw
produces it. -/
def IsTokenUrlsafe16 (t : String) : Prop :=
  ∃ bs : List Nat, bs.length = 16 ∧ (∀ b ∈ bs, b < 256) ∧
    token_urlsafe_bytes bs = t

/-- Key generation of `create_license` (`main.py` lines 106-109), as a
function of the raw `secrets.token_urlsafe(16)` output:
`token = raw.upper().replace("-", "").replace("_", "")` and then
`key = "-".join([token[i:i+4] for i in range(0, 16, 4)])`. -/
def make_key (raw : String) : String :=
  let token := pyReplaceChar (pyReplaceChar (pyUpper raw) '-') '_'
  String.intercalate "-"
    [pySlice token 0 4, pySlice token 4 8, pySlice token 8 12,
     pySlice token 12 16]

/-- Uppercase alphanumeric character class `[A-Z0-9]`. -/
def isUpperAlnum (c : Char) : Bool :=
  ('A' ≤ c && c ≤ 'Z') || ('0' ≤ c && c ≤ '9')

/-- Split a character list at every occurrence of `sep` (the separator
itself is dropped; `n` separators yield `n + 1` pieces). -/
def splitOnChar (sep : Char) : List Char → List (List Char)
  | [] => [[]]
  | c :: rest =>
    let r := splitOnChar sep rest
    if c = sep then [] :: r
    else (c :: r.headD []) :: r.tail

/-- The key-format regular expression
`^[A-Z0-9]\x7b4\x7d(-[A-Z0-9]\x7b4\x7d)\x7b3\x7d$`: four groups of four
uppercase alphanumerics joined by hyphens (19 characters total). -/
def isKeyFormat (s : String) : Bool :=
  match splitOnChar '-' s.data with
  | [g1, g2, g3, g4] =>
    [g1, g2, g3, g4].all fun g => g.length == 4 && g.all isUpperAlnum
  | _ => false

/-- Hex digit class accepted by `bson.ObjectId`. -/
def isHexChar (c : Char) : Bool :=
  ('0' ≤ c && c ≤ '9') || ('a' ≤ c && c ≤ 'f') || ('A' ≤ c && c ≤ 'F')

/-- `bson.ObjectId(s)` succeeds exactly on 24-character hex strings;
otherwise it raises `InvalidId`. -/
def isValidObjectId (s : String) : Bool :=
  s.length == 24 && s.data.all isHexChar

/-- The `License` document schema (`schemas.py` lines 46-57).
`max_activations` is a Python int, hence `Int` here; the pydantic bound
`ge=1, le=100` is checked at construction time by
`license_max_activations_ok`, not baked into the type.
`expires_at` is an optional timestamp, kept abstract as a string. -/
structure License where
  product_id : String
  key : String
  assigned_to : Option String
  status : String
  max_activations : Int
  activations : List String
  expires_at : Option String
deriving DecidableEq

/-- The pydantic field constraint on `License.max_activations`
(`schemas.py` line 55): `ge=1, le=100`. -/
def license_max_activations_ok (n : Int) : Bool := 1 ≤ n && n ≤ 100

/-- Request body of `POST /api/licenses` (`LicenseCreate`,
`main.py` lines 69-73). FastAPI has already coerced the fields, so
`max_activations` is an arbitrary int here. -/
structure LicenseCreate where
  product_id : String
  assigned_to : Option String
  max_activations : Int
  expires_at : Option String

/-- The slice of the Mongo database the two operations touch:
the `productsaas` collection reduced to its `_id`s (existence is all
`create_license` reads, as lowercase 24-hex strings), and the `license`
collection. -/
structure DB where
  productsaas : List String
  license : List License
deriving DecidableEq

/-- Outcome of `create_license`: either an `HTTPException`-shaped error
(status code and detail) or the `{"id": ..., "key": ...}` response. -/
inductive CreateResult where
  | err (statusCode : Nat) (detail : String)
  | created (id : String) (key : String)
deriving DecidableEq

/-- `create_license` (`main.py` lines 97-125).
`raw` is the output of `secrets.token_urlsafe(16)`; `newId` is the
ObjectId the store assigns on insert. Evaluation order follows the
Python: `ObjectId(product_id)` may raise first (generic 400), then the
product existence check (404), then key generation, then pydantic
validation of the `License` payload (generic 400), then the insert. -/
def create_license (db : DB) (data : LicenseCreate) (raw : String)
    (newId : String) : CreateResult × DB :=
  if isValidObjectId data.product_id = true then
    if pyLower data.product_id ∈ db.productsaas then
      let key := make_key raw
      if license_max_activations_ok data.max_activations = true then
        let payload : License :=
          { product_id := data.product_id
            key := key
            assigned_to := data.assigned_to
            status := "unused"
            max_activations := data.max_activations
            activations := []
            expires_at := none }
        (CreateResult.created newId key,
          { db with license := db.license ++ [payload] })
      else
        (CreateResult.err 400 "ValidationError", db)
    else
      (CreateResult.err 404 "Product not found", db)
  else
    (CreateResult.err 400 "InvalidId", db)

/-- Outcome of `activate_license`: an `HTTPException`-shaped error, or
the `{"status": "ok", "message": ..., "activations"?: ...}` response
(the idempotent-repeat response carries no activations list). -/
inductive ActivateResult where
  | err (statusCode : Nat) (detail : String)
  | ok (message : String) (activations : Option (List String))
deriving DecidableEq

/-- The per-record decision logic of `activate_license`
(`main.py` lines 152-163), applied to the license `find_one` returned:
the result, and the replacement record when the code reaches the
`update_one` (`none` on every non-writing path). -/
def activateOne (lic : License) (machine_id : String) :
    ActivateResult × Option License :=
  if lic.status = "suspended" ∨ lic.status = "expired" then
    (ActivateResult.err 403 "License not active", none)
  else if machine_id ∈ lic.activations then
    (ActivateResult.ok "Already activated on this machine" none, none)
  else if lic.max_activations ≤ (lic.activations.length : Int) then
    (ActivateResult.err 403 "Activation limit reached", none)
  else
    let acts := lic.activations ++ [machine_id]
    (ActivateResult.ok "Activated" (some acts),
     some { lic with activations := acts, status := "active" })

/-- `activate_license` (`main.py` lines 146-167) over the `license`
collection: `find_one({"key": key})` is the first record with that key;
on the writing path `update_one({"_id": lic["_id"]}, ...)` replaces
exactly that record. -/
def activate_license (store : List License) (key machine_id : String) :
    ActivateResult × List License :=
  match store.find? (fun l => l.key == key) with
  | none => (ActivateResult.err 404 "License not found", store)
  | some lic =>
    match activateOne lic machine_id with
    | (r, none) => (r, store)
    | (r, some lic') =>
      (r, store.set (store.findIdx (fun l => l.key == key)) lic')

/-- The data-model invariants of §3 of the spec, for one license record:
the activation count never exceeds the ceiling, machine ids are pairwise
distinct, and the status is `active` exactly when some machine was
admitted. -/
def Inv (l : License) : Prop :=
  (l.activations.length : Int) ≤ l.max_activations ∧
  l.activations.Nodup ∧
  (l.status = "active" ↔ l.activations ≠ [])

instance (l : License) : Decidable (Inv l) := by
  unfold Inv; infer_instance

/-! Helper lemmas about list search and update, and inversion lemmas for
the branches of `activateOne` and `create_license`. -/

theorem getElem_findIdx_of_find {α : Type} (p : α → Bool) :
    ∀ (l : List α) (x : α), l.find? p = some x → l[l.findIdx p]? = some x := by
  intro l
  induction l with
  | nil => intro x h; simp [List.find?] at h
  | cons a t ih =>
    intro x h
    by_cases hpa : p a
    · rw [List.find?_cons_of_pos _ hpa] at h
      cases h
      simp [List.findIdx_cons, hpa]
    · rw [List.find?_cons_of_neg _ hpa] at h
      have ht := ih x h
      simp [List.findIdx_cons, hpa, ht]

theorem find_set_findIdx {α : Type} (p : α → Bool) :
    ∀ (l : List α) (x y : α), l.find? p = some x → p y = true →
      (l.set (l.findIdx p) y).find? p = some y := by
  intro l
  induction l with
  | nil => intro x y h _; simp [List.find?] at h
  | cons a t ih =>
    intro x y h hy
    by_cases hpa : p a
    · simp [List.findIdx_cons, hpa, List.find?_cons_of_pos _ hy]
    · rw [List.find?_cons_of_neg _ hpa] at h
      simp only [List.findIdx_cons, hpa, cond_false, List.set_cons_succ]
      rw [List.find?_cons_of_neg _ hpa]
      exact ih x y h hy

theorem activateOne_inactive (lic : License) (mid : String)
    (h : lic.status = "suspended" ∨ lic.status = "expired") :
    activateOne lic mid = (ActivateResult.err 403 "License not active", none) := by
  unfold activateOne
  rw [if_pos h]

theorem activateOne_already (lic : License) (mid : String)
    (h1 : lic.status ≠ "suspended") (h2 : lic.status ≠ "expired")
    (h3 : mid ∈ lic.activations) :
    activateOne lic mid =
      (ActivateResult.ok "Already activated on this machine" none, none) := by
  unfold activateOne
  rw [if_neg (not_or.mpr ⟨h1, h2⟩), if_pos h3]

theorem activateOne_limit (lic : License) (mid : String)
    (h1 : lic.status ≠ "suspended") (h2 : lic.status ≠ "expired")
    (h3 : mid ∉ lic.activations)
    (h4 : lic.max_activations ≤ (lic.activations.length : Int)) :
    activateOne lic mid =
      (ActivateResult.err 403 "Activation limit reached", none) := by
  unfold activateOne
  rw [if_neg (not_or.mpr ⟨h1, h2⟩), if_neg h3, if_pos h4]

theorem activateOne_grant (lic : License) (mid : String)
    (h1 : lic.status ≠ "suspended") (h2 : lic.status ≠ "expired")
    (h3 : mid ∉ lic.activations)
    (h4 : (lic.activations.length : Int) < lic.max_activations) :
    activateOne lic mid =
      (ActivateResult.ok "Activated" (some (lic.activations ++ [mid])),
       some { lic with activations := lic.activations ++ [mid],
                       status := "active" }) := by
  unfold activateOne
  rw [if_neg (not_or.mpr ⟨h1, h2⟩), if_neg h3, if_neg (not_le.mpr h4)]

theorem activateOne_write_inv (lic : License) (mid : String) (lic' : License)
    (h : (activateOne lic mid).2 = some lic') :
    lic' = { lic with activations := lic.activations ++ [mid],
                      status := "active" } ∧
    lic.status ≠ "suspended" ∧ lic.status ≠ "expired" ∧
    mid ∉ lic.activations ∧
    (lic.activations.length : Int) < lic.max_activations := by
  unfold activateOne at h
  by_cases h1 : lic.status = "suspended" ∨ lic.status = "expired"
  · rw [if_pos h1] at h
    simp at h
  · rw [if_neg h1] at h
    by_cases h2 : mid ∈ lic.activations
    · rw [if_pos h2] at h
      simp at h
    · rw [if_neg h2] at h
      by_cases h3 : lic.max_activations ≤ (lic.activations.length : Int)
      · rw [if_pos h3] at h
        simp at h
      · rw [if_neg h3] at h
        simp only [Option.some.injEq] at h
        exact ⟨h.symm, (not_or.mp h1).1, (not_or.mp h1).2, h2, not_le.mp h3⟩

theorem create_license_invalid_id (db : DB) (data : LicenseCreate)
    (raw newId : String) (h : isValidObjectId data.product_id = false) :
    create_license db data raw newId = (CreateResult.err 400 "InvalidId", db) := by
  unfold create_license
  rw [if_neg (by simp [h])]

theorem create_license_no_product (db : DB) (data : LicenseCreate)
    (raw newId : String) (h1 : isValidObjectId data.product_id = true)
    (h2 : pyLower data.product_id ∉ db.productsaas) :
    create_license db data raw newId =
      (CreateResult.err 404 "Product not found", db) := by
  unfold create_license
  rw [if_pos h1, if_neg h2]

theorem create_license_bad_bounds (db : DB) (data : LicenseCreate)
    (raw newId : String) (h1 : isValidObjectId data.product_id = true)
    (h2 : pyLower data.product_id ∈ db.productsaas)
    (h3 : license_max_activations_ok data.max_activations = false) :
    create_license db data raw newId =
      (CreateResult.err 400 "ValidationError", db) := by
  unfold create_license
  rw [if_pos h1, if_pos h2, if_neg (by simp [h3])]

theorem create_license_success (db : DB) (data : LicenseCreate)
    (raw newId : String) (h1 : isValidObjectId data.product_id = true)
    (h2 : pyLower data.product_id ∈ db.productsaas)
    (h3 : license_max_activations_ok data.max_activations = true) :
    create_license db data raw newId =
      (CreateResult.created newId (make_key raw),
       { db with license := db.license ++
          [{ product_id := data.product_id
             key := make_key raw
             assigned_to := data.assigned_to
             status := "unused"
             max_activations := data.max_activations
             activations := []
             expires_at := none }] }) := by
  unfold create_license
  rw [if_pos h1, if_pos h2, if_pos h3]

theorem create_license_created_inv (db : DB) (data : LicenseCreate)
    (raw newId rid k : String) (db' : DB)
    (h : create_license db data raw newId = (CreateResult.created rid k, db')) :
    isValidObjectId data.product_id = true ∧
    pyLower data.product_id ∈ db.productsaas ∧
    license_max_activations_ok data.max_activations = true ∧
    rid = newId ∧ k = make_key raw ∧
    db' = { db with license := db.license ++
      [{ product_id := data.product_id
         key := make_key raw
         assigned_to := data.assigned_to
         status := "unused"
         max_activations := data.max_activations
         activations := []
         expires_at := none }] } := by
  by_cases h1 : isValidObjectId data.product_id = true
  · by_cases h2 : pyLower data.product_id ∈ db.productsaas
    · by_cases h3 : license_max_activations_ok data.max_activations = true
      · rw [create_license_success db data raw newId h1 h2 h3] at h
        obtain ⟨hr, hdb⟩ := Prod.mk.injEq .. ▸ h
        cases hr
        exact ⟨h1, h2, h3, rfl, rfl, hdb.symm ▸ rfl⟩
      · rw [create_license_bad_bounds db data raw newId h1 h2
          (Bool.not_eq_true _ ▸ h3)] at h
        simp at h
    · rw [create_license_no_product db data raw newId h1 h2] at h
      simp at h
  · rw [create_license_invalid_id db data raw newId
      (Bool.not_eq_true _ ▸ h1)] at h
    simp at h

theorem activateOne_preserves (lic : License) (mid : String) (lic' : License)
    (hInv : Inv lic) (h : (activateOne lic mid).2 = some lic') :
    Inv lic' ∧ lic'.status = "active" ∧
    lic'.activations = lic.activations ++ [mid] := by
  obtain ⟨heq, -, -, hmem, hlt⟩ := activateOne_write_inv lic mid lic' h
  obtain ⟨-, hnd, -⟩ := hInv
  subst heq
  refine ⟨⟨?_, ?_, ?_⟩, rfl, rfl⟩
  · simp only [List.length_append, List.length_singleton]
    push_cast
    omega
  · refine List.nodup_append.mpr ⟨hnd, List.nodup_singleton mid, ?_⟩
    intro a ha hb
    rw [List.mem_singleton] at hb
    exact hmem (hb ▸ ha)
  · simp

theorem activate_license_not_found (store : List License) (key mid : String)
    (hf : store.find? (fun l => l.key == key) = none) :
    activate_license store key mid =
      (ActivateResult.err 404 "License not found", store) := by
  unfold activate_license
  rw [hf]

theorem activate_license_found (store : List License) (key mid : String)
    (lic : License) (hf : store.find? (fun l => l.key == key) = some lic) :
    activate_license store key mid =
      match activateOne lic mid with
      | (r, none) => (r, store)
      | (r, some lic') =>
        (r, store.set (store.findIdx (fun l => l.key == key)) lic') := by
  unfold activate_license
  rw [hf]

theorem activate_preserves_store (store : List License) (key mid : String)
    (hinv : ∀ l ∈ store, Inv l) :
    ∀ l' ∈ (activate_license store key mid).2, Inv l' := by
  intro l' hmem
  cases hf : store.find? (fun l => l.key == key) with
  | none =>
    rw [activate_license_not_found store key mid hf] at hmem
    exact hinv l' hmem
  | some lic =>
    rw [activate_license_found store key mid lic hf] at hmem
    rcases hw : activateOne lic mid with ⟨r, w⟩
    rw [hw] at hmem
    cases w with
    | none => exact hinv l' hmem
    | some lic1 =>
      have hmem' : l' ∈ store.set
          (store.findIdx (fun l => l.key == key)) lic1 := hmem
      rcases List.mem_or_eq_of_mem_set hmem' with hold | hnew
      · exact hinv l' hold
      · subst hnew
        have hlic : Inv lic := hinv lic (List.mem_of_find?_eq_some hf)
        exact (activateOne_preserves lic mid l' hlic (by rw [hw])).1

theorem max_activations_ok_iff (n : Int) :
    license_max_activations_ok n = true ↔ 1 ≤ n ∧ n ≤ 100 := by
  simp [license_max_activations_ok]

theorem Inv_fresh (pid k : String) (ass : Option String) (n : Int)
    (e : Option String) (hn : 0 ≤ n) :
    Inv { product_id := pid, key := k, assigned_to := ass, status := "unused",
          max_activations := n, activations := [], expires_at := e } := by
  refine ⟨?_, List.nodup_nil, ?_⟩
  · simpa using hn
  · show ("unused" : String) = "active" ↔ ([] : List String) ≠ []
    decide

theorem activateOne_activated_inv (lic : License) (mid : String)
    (acts : List String) (w : Option License)
    (h : activateOne lic mid = (ActivateResult.ok "Activated" (some acts), w)) :
    w = some { lic with activations := lic.activations ++ [mid],
                        status := "active" } ∧
    acts = lic.activations ++ [mid] ∧
    lic.status ≠ "suspended" ∧ lic.status ≠ "expired" ∧
    mid ∉ lic.activations ∧
    (lic.activations.length : Int) < lic.max_activations := by
  by_cases h1 : lic.status = "suspended" ∨ lic.status = "expired"
  · rw [activateOne_inactive lic mid h1] at h
    simp at h
  · have h1' := not_or.mp h1
    by_cases h2 : mid ∈ lic.activations
    · rw [activateOne_already lic mid h1'.1 h1'.2 h2] at h
      have : ("Already activated on this machine" : String) = "Activated" :=
        (ActivateResult.ok.inj (Prod.mk.injEq .. ▸ h).1).1
      exact absurd this (by decide)
    · by_cases h3 : lic.max_activations ≤ (lic.activations.length : Int)
      · rw [activateOne_limit lic mid h1'.1 h1'.2 h2 h3] at h
        simp at h
      · rw [activateOne_grant lic mid h1'.1 h1'.2 h2 (not_le.mp h3)] at h
        obtain ⟨hr, hw⟩ := Prod.mk.injEq .. ▸ h
        exact ⟨hw.symm, (Option.some.inj (ActivateResult.ok.inj hr).2).symm,
          h1'.1, h1'.2, h2, not_le.mp h3⟩

/-- Claim C1: every license record satisfying the three data-model
invariants (activation count at most `max_activations`, pairwise-distinct
machine ids, status `active` iff some machine was admitted) still
satisfies them after any single `activate_license` call and any
`create_license` call; `create_license` creates its record with status
`unused` and empty activations, and `activate_license` sets status to
`active` exactly on the path where it appends a machine id. -/
theorem claim_C1 :
    (∀ (store : List License) (key mid : String),
        (∀ l ∈ store, Inv l) →
        ∀ l' ∈ (activate_license store key mid).2, Inv l') ∧
    (∀ (lic : License) (mid : String) (lic' : License),
        Inv lic → (activateOne lic mid).2 = some lic' →
        Inv lic' ∧ lic'.status = "active" ∧
        lic'.activations = lic.activations ++ [mid]) ∧
    (∀ (db : DB) (data : LicenseCreate) (raw newId : String),
        (∀ l ∈ db.license, Inv l) →
        ∀ l' ∈ (create_license db data raw newId).2.license, Inv l') ∧
    (∀ (db : DB) (data : LicenseCreate) (raw newId rid k : String) (db' : DB),
        create_license db data raw newId = (CreateResult.created rid k, db') →
        ∃ p, db'.license = db.license ++ [p] ∧
          p.status = "unused" ∧ p.activations = [] ∧ Inv p) := by
  refine ⟨activate_preserves_store, activateOne_preserves, ?_, ?_⟩
  · intro db data raw newId hinv l' hmem
    by_cases h1 : isValidObjectId data.product_id = true
    · by_cases h2 : pyLower data.product_id ∈ db.productsaas
      · by_cases h3 : license_max_activations_ok data.max_activations = true
        · rw [create_license_success db data raw newId h1 h2 h3] at hmem
          simp only [List.mem_append, List.mem_singleton] at hmem
          rcases hmem with hold | hnew
          · exact hinv l' hold
          · subst hnew
            exact Inv_fresh _ _ _ _ _
              (by have := (max_activations_ok_iff _).mp h3; omega)
        · rw [create_license_bad_bounds db data raw newId h1 h2
            (Bool.not_eq_true _ ▸ h3)] at hmem
          exact hinv l' hmem
      · rw [create_license_no_product db data raw newId h1 h2] at hmem
        exact hinv l' hmem
    · rw [create_license_invalid_id db data raw newId
        (Bool.not_eq_true _ ▸ h1)] at hmem
      exact hinv l' hmem
  · intro db data raw newId rid k db' h
    obtain ⟨-, -, h3, -, -, hdb⟩ :=
      create_license_created_inv db data raw newId rid k db' h
    subst hdb
    exact ⟨_, rfl, rfl, rfl,
      Inv_fresh _ _ _ _ _ (by have := (max_activations_ok_iff _).mp h3; omega)⟩

/-- Claim C1 witness: a concrete fresh license with one admitted machine
satisfies the invariants, via the record-level part of `claim_C1`. -/
theorem claim_C1_witness :
    Inv ⟨"p1", "K1", none, "active", 2, ["m1"], none⟩ := by
  have h := claim_C1.2.1 ⟨"p1", "K1", none, "unused", 2, [], none⟩ "m1"
    ⟨"p1", "K1", none, "active", 2, ["m1"], none⟩ (by decide) (by decide)
  exact h.1

/-- Claim C2: activation is idempotent per machine: a stored license
whose activations already contain the machine id and whose status is not
`suspended` or `expired` answers the idempotent-repeat response with no
write at all, capacity notwithstanding; and a successful activation
followed by the same call yields Admitted then AlreadyAdmitted with the
store untouched by the second call. -/
theorem claim_C2 :
    (∀ (store : List License) (key mid : String) (lic : License),
        store.find? (fun l => l.key == key) = some lic →
        lic.status ≠ "suspended" → lic.status ≠ "expired" →
        mid ∈ lic.activations →
        activate_license store key mid =
          (ActivateResult.ok "Already activated on this machine" none, store)) ∧
    (∀ (store store1 : List License) (key mid : String) (acts : List String),
        activate_license store key mid =
          (ActivateResult.ok "Activated" (some acts), store1) →
        activate_license store1 key mid =
          (ActivateResult.ok "Already activated on this machine" none,
           store1)) := by
  constructor
  · intro store key mid lic hf h1 h2 h3
    rw [activate_license_found store key mid lic hf,
      activateOne_already lic mid h1 h2 h3]
  · intro store store1 key mid acts h
    cases hf : store.find? (fun l => l.key == key) with
    | none =>
      rw [activate_license_not_found store key mid hf] at h
      simp at h
    | some lic =>
      rw [activate_license_found store key mid lic hf] at h
      rcases hw : activateOne lic mid with ⟨r, w⟩
      rw [hw] at h
      cases w with
      | none =>
        obtain ⟨hr, -⟩ := Prod.mk.injEq .. ▸ h
        subst hr
        obtain ⟨hww, -⟩ := activateOne_activated_inv lic mid acts none hw
        simp at hww
      | some lic1 =>
        obtain ⟨hr, hst⟩ := Prod.mk.injEq .. ▸ h
        subst hr
        obtain ⟨hww, -, -, -, -, -⟩ :=
          activateOne_activated_inv lic mid acts (some lic1) hw
        have hlic1 : lic1 = { lic with activations := lic.activations ++ [mid],
                                       status := "active" } :=
          Option.some.inj hww
        have hstat1 : lic1.status = "active" := by rw [hlic1]
        have hacts1 : lic1.activations = lic.activations ++ [mid] := by
          rw [hlic1]
        have hkey := List.find?_some hf
        have hkey1 : lic1.key = lic.key := by rw [hlic1]
        have hp : (fun l : License => l.key == key) lic1 = true := by
          show (lic1.key == key) = true
          rw [hkey1]
          exact hkey
        have hfind1 := find_set_findIdx (fun l : License => l.key == key)
          store lic lic1 hf hp
        rw [← hst]
        rw [activate_license_found _ key mid lic1 hfind1,
          activateOne_already lic1 mid (by rw [hstat1]; decide)
            (by rw [hstat1]; decide) (by rw [hacts1]; simp)]

/-- Claim C2 witness: activating a fresh one-seat license twice with the
same machine yields Admitted then AlreadyAdmitted with no second write,
via the second part of `claim_C2`. -/
theorem claim_C2_witness :
    activate_license [⟨"p1", "K1", none, "active", 1, ["m1"], none⟩]
        "K1" "m1" =
      (ActivateResult.ok "Already activated on this machine" none,
       [⟨"p1", "K1", none, "active", 1, ["m1"], none⟩]) :=
  claim_C2.2 [⟨"p1", "K1", none, "unused", 1, [], none⟩]
    [⟨"p1", "K1", none, "active", 1, ["m1"], none⟩] "K1" "m1" ["m1"]
    (by decide)

/-- Claim C3: a license at its two-seat capacity (two distinct admitted
machines, ceiling 2) rejects a third distinct machine with
`Forbidden("Activation limit reached")` and the store is unchanged. -/
theorem claim_C3 :
    ∀ (store : List License) (key m1 m2 m3 : String) (lic : License),
      store.find? (fun l => l.key == key) = some lic →
      lic.status = "active" → lic.max_activations = 2 →
      lic.activations = [m1, m2] → m1 ≠ m2 → m3 ≠ m1 → m3 ≠ m2 →
      activate_license store key m3 =
        (ActivateResult.err 403 "Activation limit reached", store) := by
  intro store key m1 m2 m3 lic hf hst hmax hacts h12 h31 h32
  rw [activate_license_found store key m3 lic hf,
    activateOne_limit lic m3 (by rw [hst]; decide) (by rw [hst]; decide)
      (by rw [hacts]; simp [h31, h32])
      (by rw [hacts, hmax]; simp)]

/-- Claim C3 witness: `claim_C3` applied to a concrete full license. -/
theorem claim_C3_witness :
    activate_license [⟨"p1", "K1", none, "active", 2, ["m1", "m2"], none⟩]
        "K1" "m3" =
      (ActivateResult.err 403 "Activation limit reached",
       [⟨"p1", "K1", none, "active", 2, ["m1", "m2"], none⟩]) :=
  claim_C3 [⟨"p1", "K1", none, "active", 2, ["m1", "m2"], none⟩]
    "K1" "m1" "m2" "m3" ⟨"p1", "K1", none, "active", 2, ["m1", "m2"], none⟩
    (by decide) rfl rfl rfl (by decide) (by decide) (by decide)

/-- Claim C5: a stored license whose status is `suspended` or `expired`
makes `activate_license` fail with `Forbidden("License not active")` for
every machine id, with no write; and the decision of `activateOne` never
depends on `expires_at`. -/
theorem claim_C5 :
    (∀ (store : List License) (key mid : String) (lic : License),
        store.find? (fun l => l.key == key) = some lic →
        (lic.status = "suspended" ∨ lic.status = "expired") →
        activate_license store key mid =
          (ActivateResult.err 403 "License not active", store)) ∧
    (∀ (lic : License) (mid : String) (e : Option String),
        (activateOne { lic with expires_at := e } mid).1 =
          (activateOne lic mid).1) := by
  constructor
  · intro store key mid lic hf hst
    rw [activate_license_found store key mid lic hf,
      activateOne_inactive lic mid hst]
  · intro lic mid e
    by_cases h1 : lic.status = "suspended" ∨ lic.status = "expired"
    · rw [activateOne_inactive { lic with expires_at := e } mid h1,
        activateOne_inactive lic mid h1]
    · have h1' := not_or.mp h1
      by_cases h2 : mid ∈ lic.activations
      · rw [activateOne_already { lic with expires_at := e } mid
            h1'.1 h1'.2 h2,
          activateOne_already lic mid h1'.1 h1'.2 h2]
      · by_cases h3 : lic.max_activations ≤ (lic.activations.length : Int)
        · rw [activateOne_limit { lic with expires_at := e } mid
              h1'.1 h1'.2 h2 h3,
            activateOne_limit lic mid h1'.1 h1'.2 h2 h3]
        · rw [activateOne_grant { lic with expires_at := e } mid
              h1'.1 h1'.2 h2 (not_le.mp h3),
            activateOne_grant lic mid h1'.1 h1'.2 h2 (not_le.mp h3)]

/-- Claim C5 witness: `claim_C5` applied to a concrete suspended license
with free capacity and to a concrete expiry change. -/
theorem claim_C5_witness :
    activate_license [⟨"p1", "K1", none, "suspended", 5, ["m1"], none⟩]
        "K1" "m2" =
      (ActivateResult.err 403 "License not active",
       [⟨"p1", "K1", none, "suspended", 5, ["m1"], none⟩]) ∧
    (activateOne ⟨"p1", "K1", none, "unused", 1, [],
        some "2020-01-01T00:00:00Z"⟩ "m1").1 =
      (activateOne ⟨"p1", "K1", none, "unused", 1, [], none⟩ "m1").1 :=
  ⟨claim_C5.1 [⟨"p1", "K1", none, "suspended", 5, ["m1"], none⟩] "K1" "m2"
      ⟨"p1", "K1", none, "suspended", 5, ["m1"], none⟩
      (by decide) (Or.inl rfl),
   claim_C5.2 ⟨"p1", "K1", none, "unused", 1, [], none⟩ "m1"
      (some "2020-01-01T00:00:00Z")⟩

/-- Claim C4 fails on the code: the 16-byte draw `0xFF * 16` is a
possible output of the random token source (its URL-safe base64 text is
twenty-one underscores followed by `w`); stripping separators leaves a
single character, so the generated key is `W---`, which does not match
`^[A-Z0-9]\x7b4\x7d(-[A-Z0-9]\x7b4\x7d)\x7b3\x7d$`, and a valid issuance
(existing product, in-range `max_activations`) can therefore return a
malformed key. -/
theorem claim_C4_code_bug :
    IsTokenUrlsafe16 "_____________________w" ∧
    make_key "_____________________w" = "W---" ∧
    isKeyFormat "W---" = false ∧
    (create_license ⟨["aaaaaaaaaaaaaaaaaaaaaaaa"], []⟩
        ⟨"aaaaaaaaaaaaaaaaaaaaaaaa", none, 1, none⟩
        "_____________________w" "id1").1 =
      CreateResult.created "id1" "W---" :=
  ⟨⟨List.replicate 16 255, by decide, by decide, by decide⟩,
   by decide, by decide, by decide⟩

/-- Claim C6: every successful issuance persists exactly one new license
record, with status `unused`, empty activations and no expiry; the
result of `create_license` never depends on the caller-supplied
`expires_at`. -/
theorem claim_C6 :
    (∀ (db : DB) (data : LicenseCreate) (raw newId rid k : String)
        (db' : DB),
        create_license db data raw newId = (CreateResult.created rid k, db') →
        ∃ p, db'.license = db.license ++ [p] ∧ p.status = "unused" ∧
          p.activations = [] ∧ p.expires_at = none) ∧
    (∀ (db : DB) (data : LicenseCreate) (raw newId : String)
        (e : Option String),
        create_license db { data with expires_at := e } raw newId =
          create_license db data raw newId) := by
  constructor
  · intro db data raw newId rid k db' h
    obtain ⟨-, -, -, -, -, hdb⟩ :=
      create_license_created_inv db data raw newId rid k db' h
    subst hdb
    exact ⟨_, rfl, rfl, rfl, rfl⟩
  · intro db data raw newId e
    rfl

/-- Claim C6 witness: `claim_C6` applied to a concrete issuance carrying
a caller expiry, which the persisted record discards. -/
theorem claim_C6_witness :
    ∃ p : License,
      [({ product_id := "aaaaaaaaaaaaaaaaaaaaaaaa",
          key := "AAEC-AWQF-BGCI-CQOL", assigned_to := none,
          status := "unused", max_activations := 2, activations := [],
          expires_at := none } : License)] =
        ([] : List License) ++ [p] ∧
      p.status = "unused" ∧ p.activations = [] ∧ p.expires_at = none :=
  claim_C6.1 ⟨["aaaaaaaaaaaaaaaaaaaaaaaa"], []⟩
    ⟨"aaaaaaaaaaaaaaaaaaaaaaaa", none, 2, some "2030-01-01T00:00:00Z"⟩
    "AAECAwQFBgcICQoLDA0ODw" "id1" "id1" "AAEC-AWQF-BGCI-CQOL"
    ⟨["aaaaaaaaaaaaaaaaaaaaaaaa"],
     [⟨"aaaaaaaaaaaaaaaaaaaaaaaa", "AAEC-AWQF-BGCI-CQOL", none, "unused",
       2, [], none⟩]⟩
    (by decide)

/-- Claim C7: issuing against a well-formed product id with no matching
product record fails with `NotFound` (404) and persists nothing;
activating a key no stored license carries fails with `NotFound` (404)
and writes nothing. -/
theorem claim_C7 :
    (∀ (db : DB) (data : LicenseCreate) (raw newId : String),
        isValidObjectId data.product_id = true →
        pyLower data.product_id ∉ db.productsaas →
        create_license db data raw newId =
          (CreateResult.err 404 "Product not found", db)) ∧
    (∀ (store : List License) (key mid : String),
        store.find? (fun l => l.key == key) = none →
        activate_license store key mid =
          (ActivateResult.err 404 "License not found", store)) :=
  ⟨create_license_no_product, activate_license_not_found⟩

/-- Claim C7 witness: `claim_C7` applied to an empty product collection
and an empty license store. -/
theorem claim_C7_witness :
    create_license ⟨[], []⟩ ⟨"aaaaaaaaaaaaaaaaaaaaaaaa", none, 1, none⟩
        "AAECAwQFBgcICQoLDA0ODw" "id1" =
      (CreateResult.err 404 "Product not found", ⟨[], []⟩) ∧
    activate_license [] "K1" "m1" =
      (ActivateResult.err 404 "License not found", []) :=
  ⟨claim_C7.1 ⟨[], []⟩ ⟨"aaaaaaaaaaaaaaaaaaaaaaaa", none, 1, none⟩
      "AAECAwQFBgcICQoLDA0ODw" "id1" (by decide) (by decide),
   claim_C7.2 [] "K1" "m1" (by decide)⟩

/-- Claim C8: with an existing product, a `max_activations` outside the
1..100 pydantic bound fails validation with a generic 400 and persists
nothing; the bound predicate holds exactly on 1..100, and inside the
bound the issuance succeeds. -/
theorem claim_C8 :
    (∀ (db : DB) (data : LicenseCreate) (raw newId : String),
        isValidObjectId data.product_id = true →
        pyLower data.product_id ∈ db.productsaas →
        ¬(1 ≤ data.max_activations ∧ data.max_activations ≤ 100) →
        create_license db data raw newId =
          (CreateResult.err 400 "ValidationError", db)) ∧
    (∀ n : Int, license_max_activations_ok n = true ↔ 1 ≤ n ∧ n ≤ 100) ∧
    (∀ (db : DB) (data : LicenseCreate) (raw newId : String),
        isValidObjectId data.product_id = true →
        pyLower data.product_id ∈ db.productsaas →
        1 ≤ data.max_activations → data.max_activations ≤ 100 →
        ∃ db', create_license db data raw newId =
          (CreateResult.created newId (make_key raw), db')) := by
  refine ⟨?_, max_activations_ok_iff, ?_⟩
  · intro db data raw newId h1 h2 hb
    refine create_license_bad_bounds db data raw newId h1 h2 ?_
    rw [Bool.eq_false_iff]
    intro hok
    exact hb ((max_activations_ok_iff _).mp hok)
  · intro db data raw newId h1 h2 hlo hhi
    exact ⟨_, create_license_success db data raw newId h1 h2
      ((max_activations_ok_iff _).mpr ⟨hlo, hhi⟩)⟩

/-- Claim C8 witness: `claim_C8` applied at `max_activations = 0`
(rejected), `101` (outside the bound predicate) and `100` (accepted). -/
theorem claim_C8_witness :
    create_license ⟨["aaaaaaaaaaaaaaaaaaaaaaaa"], []⟩
        ⟨"aaaaaaaaaaaaaaaaaaaaaaaa", none, 0, none⟩
        "AAECAwQFBgcICQoLDA0ODw" "id1" =
      (CreateResult.err 400 "ValidationError",
       ⟨["aaaaaaaaaaaaaaaaaaaaaaaa"], []⟩) ∧
    (license_max_activations_ok 101 = true ↔
      1 ≤ (101 : Int) ∧ (101 : Int) ≤ 100) ∧
    ∃ db', create_license ⟨["aaaaaaaaaaaaaaaaaaaaaaaa"], []⟩
        ⟨"aaaaaaaaaaaaaaaaaaaaaaaa", none, 100, none⟩
        "AAECAwQFBgcICQoLDA0ODw" "id1" =
      (CreateResult.created "id1" (make_key "AAECAwQFBgcICQoLDA0ODw"), db') :=
  ⟨claim_C8.1 ⟨["aaaaaaaaaaaaaaaaaaaaaaaa"], []⟩
      ⟨"aaaaaaaaaaaaaaaaaaaaaaaa", none, 0, none⟩
      "AAECAwQFBgcICQoLDA0ODw" "id1" (by decide) (by decide) (by decide),
   claim_C8.2.1 101,
   claim_C8.2.2 ⟨["aaaaaaaaaaaaaaaaaaaaaaaa"], []⟩
      ⟨"aaaaaaaaaaaaaaaaaaaaaaaa", none, 100, none⟩
      "AAECAwQFBgcICQoLDA0ODw" "id1" (by decide) (by decide)
      (by decide) (by decide)⟩

/-- Claim C9: a product id that is not a syntactically valid ObjectId
(not 24 hex characters) makes `create_license` fail with the generic 400
raised by the `ObjectId` constructor, before any lookup — not with the
404 used for a missing product — and persists nothing. -/
theorem claim_C9 :
    ∀ (db : DB) (data : LicenseCreate) (raw newId : String),
      isValidObjectId data.product_id = false →
      create_license db data raw newId =
        (CreateResult.err 400 "InvalidId", db) :=
  create_license_invalid_id

/-- Claim C9 witness: `claim_C9` applied to a malformed product id. -/
theorem claim_C9_witness :
    create_license ⟨["aaaaaaaaaaaaaaaaaaaaaaaa"], []⟩
        ⟨"not-an-objectid", none, 1, none⟩
        "AAECAwQFBgcICQoLDA0ODw" "id1" =
      (CreateResult.err 400 "InvalidId",
       ⟨["aaaaaaaaaaaaaaaaaaaaaaaa"], []⟩) :=
  claim_C9 ⟨["aaaaaaaaaaaaaaaaaaaaaaaa"], []⟩
    ⟨"not-an-objectid", none, 1, none⟩
    "AAECAwQFBgcICQoLDA0ODw" "id1" (by decide)

/-- Claim C10: a writing `activate_license` call replaces exactly the
found record and sets only its `activations` and `status` fields; every
call preserves the store's length, every record's identity fields
(`key`, `product_id`, `assigned_to`, `max_activations`, `expires_at`),
and leaves every record other than the first key match untouched. -/
theorem claim_C10 :
    (∀ (lic : License) (mid : String) (lic' : License),
        (activateOne lic mid).2 = some lic' →
        lic' = { lic with activations := lic.activations ++ [mid],
                          status := "active" }) ∧
    (∀ (store : List License) (key mid : String),
        ((activate_license store key mid).2).length = store.length) ∧
    (∀ (store : List License) (key mid : String) (i : Nat) (lic : License),
        store[i]? = some lic →
        ∃ lic', (activate_license store key mid).2[i]? = some lic' ∧
          lic'.key = lic.key ∧ lic'.product_id = lic.product_id ∧
          lic'.assigned_to = lic.assigned_to ∧
          lic'.max_activations = lic.max_activations ∧
          lic'.expires_at = lic.expires_at ∧
          (lic.key ≠ key → lic' = lic) ∧
          (i ≠ store.findIdx (fun l => l.key == key) → lic' = lic)) := by
  refine ⟨fun lic mid lic' h => (activateOne_write_inv lic mid lic' h).1,
    ?_, ?_⟩
  · intro store key mid
    cases hf : store.find? (fun l => l.key == key) with
    | none => rw [activate_license_not_found store key mid hf]
    | some lic =>
      rw [activate_license_found store key mid lic hf]
      rcases hw : activateOne lic mid with ⟨r, w⟩
      cases w with
      | none => rfl
      | some lic1 => exact List.length_set store _ lic1
  · intro store key mid i lic hi
    cases hf : store.find? (fun l => l.key == key) with
    | none =>
      rw [activate_license_not_found store key mid hf]
      exact ⟨lic, hi, rfl, rfl, rfl, rfl, rfl, fun _ => rfl, fun _ => rfl⟩
    | some lic0 =>
      rw [activate_license_found store key mid lic0 hf]
      rcases hw : activateOne lic0 mid with ⟨r, w⟩
      cases w with
      | none =>
        exact ⟨lic, hi, rfl, rfl, rfl, rfl, rfl, fun _ => rfl, fun _ => rfl⟩
      | some lic1 =>
        by_cases hidx : i = store.findIdx (fun l => l.key == key)
        · subst hidx
          have hget : store[store.findIdx (fun l => l.key == key)]? =
              some lic0 := getElem_findIdx_of_find _ store lic0 hf
          have hlic : lic = lic0 := by
            rw [hget] at hi
            exact (Option.some.inj hi).symm
          subst hlic
          have hlen : store.findIdx (fun l => l.key == key) < store.length := by
            rcases List.getElem?_eq_some.mp hget with ⟨hlt, -⟩
            exact hlt
          have hset : (store.set (store.findIdx (fun l => l.key == key))
              lic1)[store.findIdx (fun l => l.key == key)]? = some lic1 :=
            List.getElem?_set_eq_of_lt lic1 hlen
          have hlic1 : lic1 = { lic with
              activations := lic.activations ++ [mid],
              status := "active" } :=
            (activateOne_write_inv lic mid lic1 (by rw [hw])).1
          have hkeyeq : lic.key = key := by
            have := List.find?_some hf
            simpa using this
          refine ⟨lic1, hset, by rw [hlic1], by rw [hlic1], by rw [hlic1],
            by rw [hlic1], by rw [hlic1], ?_, ?_⟩
          · intro hne
            exact absurd hkeyeq hne
          · intro hne
            exact absurd rfl hne
        · have hset : (store.set (store.findIdx (fun l => l.key == key))
              lic1)[i]? = store[i]? :=
            List.getElem?_set_ne (fun h => hidx h.symm)
          exact ⟨lic, by rw [hset, hi], rfl, rfl, rfl, rfl, rfl,
            fun _ => rfl, fun _ => rfl⟩

/-- Claim C10 witness: `claim_C10` applied at index 0 of a one-record
store whose license the call updates. -/
theorem claim_C10_witness :
    ∃ lic', (activate_license
        [⟨"p1", "K1", none, "unused", 1, [], none⟩] "K1" "m1").2[0]? =
          some lic' ∧
      lic'.key = "K1" ∧ lic'.product_id = "p1" ∧
      lic'.assigned_to = none ∧ lic'.max_activations = 1 ∧
      lic'.expires_at = none ∧
      (("K1" : String) ≠ "K1" →
        lic' = ⟨"p1", "K1", none, "unused", 1, [], none⟩) ∧
      ((0 : Nat) ≠ List.findIdx (fun l => l.key == "K1")
          [(⟨"p1", "K1", none, "unused", 1, [], none⟩ : License)] →
        lic' = ⟨"p1", "K1", none, "unused", 1, [], none⟩) :=
  claim_C10.2.2 [⟨"p1", "K1", none, "unused", 1, [], none⟩] "K1" "m1" 0
    ⟨"p1", "K1", none, "unused", 1, [], none⟩ (by decide)

end Licensing
